import Mathlib

/-!
Shallow embedding of the asynchronous job-processing pipeline of the
santa-mailroom backend (`backend/app/worker.py`, `backend/app/job_queue.py`,
`backend/app/services/gpt_service.py`, `backend/app/models.py`), together
with proofs of the specified properties.

Machine time is modelled as a natural number; database ids as naturals;
Python `None`-able columns as `Option`; status enums as their string values
(the code stores and compares the `.value` strings).
-/

namespace SantaMailroom

/-! ## Data model (`job_queue.py`, `models.py`) -/

/-- A row of the `jobs` table (`job_queue.py`).  `payload` keys used by the
worker handlers are `letter_id`, `reply_id`, `deed_id`. -/
structure Payload where
  letter_id : Option Nat := none
  reply_id : Option Nat := none
  deed_id : Option Nat := none
  deriving Repr, DecidableEq

structure Job where
  id : Nat
  task_type : String
  payload : Payload := {}
  status : String := "pending"
  priority : Int := 0
  attempts : Nat := 0
  max_attempts : Nat := 3
  error_message : Option String := none
  created_at : Nat
  started_at : Option Nat := none
  completed_at : Option Nat := none
  scheduled_for : Nat := 0
  deriving Repr, DecidableEq

/-- A row of the `letters` table (`models.py`). -/
structure Letter where
  id : Nat
  child_id : Nat
  year : Nat
  subject : Option String := none
  body_text : String
  body_html : Option String := none
  received_at : Nat
  message_id : Option String := none
  from_email : Option String := none
  status : String := "pending"
  processed_at : Option Nat := none
  error_message : Option String := none
  deriving Repr, DecidableEq

/-- A row of the `children` table (`models.py`). -/
structure Child where
  id : Nat
  family_id : Nat
  name : String
  email_hash : String
  country : Option String := none
  birth_year : Option Nat := none
  deriving Repr, DecidableEq

/-- A row of the `wish_items` table (`models.py`). -/
structure WishItem where
  id : Nat
  letter_id : Nat
  raw_text : String
  normalized_name : Option String := none
  category : Option String := none
  status : String := "pending"
  denial_reason : Option String := none
  estimated_price : Option Nat := none
  currency : Option String := none
  product_url : Option String := none
  product_image_url : Option String := none
  product_description : Option String := none
  deriving Repr, DecidableEq

/-- A row of the `santa_replies` table (`models.py`). -/
structure SantaReply where
  id : Nat
  letter_id : Nat
  body_text : String
  body_html : Option String := none
  suggested_deed : Option String := none
  sent_at : Option Nat := none
  delivery_status : String := "pending"
  delivery_error : Option String := none
  deriving Repr, DecidableEq

/-- A row of the `good_deeds` table (`models.py`). -/
structure GoodDeed where
  id : Nat
  child_id : Nat
  description : String
  completed : Bool := false
  parent_note : Option String := none
  suggested_in_reply_id : Option Nat := none
  acknowledged_in_reply_id : Option Nat := none
  deriving Repr, DecidableEq

/-- A row of the `moderation_flags` table (`models.py`). -/
structure ModerationFlag where
  id : Nat
  letter_id : Nat
  flag_type : String
  severity : String
  excerpt : Option String := none
  ai_confidence : Option Nat := none
  ai_explanation : Option String := none
  deriving Repr, DecidableEq

/-- A row of the `sent_emails` audit table (`models.py`). -/
structure SentEmail where
  id : Nat
  child_id : Nat
  email_type : String
  subject : String
  body_text : String
  letter_id : Option Nat := none
  santa_reply_id : Option Nat := none
  deed_id : Option Nat := none
  delivery_status : String
  deriving Repr, DecidableEq

/-- A parent-facing notification record (created by the Notification
Recorder collaborator; only its existence matters to the pipeline). -/
structure NotificationRec where
  ntype : String
  child_id : Nat
  deriving Repr, DecidableEq

/-- One Mail Transport `send` call (`email_service.send_santa_reply`),
recorded as an effect-log entry so theorems can count transport calls. -/
structure MailSend where
  to_email : String
  subject : String
  body_text : String
  deriving Repr, DecidableEq

/-- The relational store visible to the worker, plus the Mail Transport
effect log.  Lists hold rows in insertion order; `nextId` generates fresh
primary keys. -/
structure DB where
  jobs : List Job := []
  letters : List Letter := []
  children : List Child := []
  wishItems : List WishItem := []
  flags : List ModerationFlag := []
  replies : List SantaReply := []
  deeds : List GoodDeed := []
  sentEmails : List SentEmail := []
  notifications : List NotificationRec := []
  mailSends : List MailSend := []
  nextId : Nat := 0
  deriving Repr, DecidableEq

/-! ## Job store & claim protocol (`worker.py` lines 54-106) -/

/-- The WHERE clause of `claim_next_job`: status pending, `scheduled_for <=
now`, `attempts < max_attempts`. -/
def jobEligible (now : Nat) (j : Job) : Bool :=
  j.status == "pending" && j.scheduled_for ≤ now && j.attempts < j.max_attempts

/-- The ORDER BY of `claim_next_job`: `a` strictly precedes `b` under
(priority DESC, created_at ASC). -/
def jobPrecedes (a b : Job) : Bool :=
  a.priority > b.priority || (a.priority == b.priority && a.created_at < b.created_at)

/-- Keep the best candidate so far: the current job `j` unless the candidate
`b` strictly precedes it under the ORDER BY. -/
def pickBetter (j : Job) : Option Job → Option Job
  | none => some j
  | some b => if jobPrecedes b j then some b else some j

/-- The SELECT of `claim_next_job`: first row of the eligible rows ordered by
(priority DESC, created_at ASC); ties beyond `created_at` resolve to the
earlier row of the table. -/
def selectNext (now : Nat) : List Job → Option Job
  | [] => none
  | j :: rest =>
    if jobEligible now j then pickBetter j (selectNext now rest)
    else selectNext now rest

/-- The claimed-job update of `claim_next_job`: status → processing,
`started_at` stamped, `attempts` incremented. -/
def claimUpdate (now : Nat) (j : Job) : Job :=
  { j with status := "processing", started_at := some now, attempts := j.attempts + 1 }

/-- `claim_next_job(db)` (`worker.py` 54-77): select the next eligible job,
transition it to processing and return it; `(none, jobs)` when none is
eligible. -/
def claim_next_job (now : Nat) (jobs : List Job) : Option Job × List Job :=
  match selectNext now jobs with
  | none => (none, jobs)
  | some j =>
    let j' := claimUpdate now j
    (some j', jobs.map fun k => if k.id == j.id then j' else k)

/-- `complete_job(db, job, success, error)` (`worker.py` 80-92). -/
def complete_job (now : Nat) (j : Job) (success : Bool) (error : Option String) : Job :=
  if success then
    { j with status := "completed", completed_at := some now }
  else if j.attempts ≥ j.max_attempts then
    { j with status := "failed", error_message := error, completed_at := some now }
  else
    { j with status := "pending", error_message := error, completed_at := some now }

/-- `enqueue_job(db, task_type, payload, priority)` (`worker.py` 95-106):
append a fresh pending job. -/
def enqueue_job (now : Nat) (db : DB) (task_type : String) (payload : Payload)
    (priority : Int) : DB :=
  { db with
      jobs := db.jobs ++ [{ id := db.nextId, task_type := task_type, payload := payload,
                            priority := priority, created_at := now, scheduled_for := now }]
      nextId := db.nextId + 1 }

/-- The task handler registry keys (`worker.py` 582-588). -/
def taskHandlerTypes : List String :=
  ["fetch_emails", "process_letter", "send_reply", "send_deed_email", "send_deed_congrats"]

/-- `process_job(db, job)` (`worker.py` 591-606), abstracted over the
handlers: `handlers t = none` models `TASK_HANDLERS.get(t)` missing,
`some (.error e)` a handler invocation that raises `e`, `some (.ok ())` one
that returns normally.  Returns the job as `complete_job` leaves it. -/
def process_job (now : Nat) (handlers : String → Option (Except String Unit))
    (j : Job) : Job :=
  match handlers j.task_type with
  | none => complete_job now j false (some ("Unknown task type: " ++ j.task_type))
  | some (Except.ok _) => complete_job now j true none
  | some (Except.error e) => complete_job now j false (some e)

/-- One worker-loop iteration (`run_worker`, `worker.py` 609-627) restricted
to a single job row: claim it if eligible, then dispatch. -/
def workerStep (now : Nat) (handlers : String → Option (Except String Unit))
    (j : Job) : Job :=
  if jobEligible now j then process_job now handlers (claimUpdate now j) else j

/-- A handler that raises on every invocation, for every task type. -/
def alwaysRaise (msg : String) : String → Option (Except String Unit) :=
  fun _ => some (Except.error msg)

/-! ## Scheduler loop (`worker.py` 632-655) -/

/-- The duplicate check of `run_scheduler`: a `fetch_emails` job exists in
pending or processing state. -/
def fetchJobOutstanding (jobs : List Job) : Bool :=
  jobs.any fun j =>
    j.task_type == "fetch_emails" && (j.status == "pending" || j.status == "processing")

/-- One scheduler cycle (`run_scheduler`, `worker.py` 639-646): enqueue a
priority-1 `fetch_emails` job unless one is already pending or processing. -/
def schedulerCycle (now : Nat) (db : DB) : DB :=
  if fetchJobOutstanding db.jobs then db
  else enqueue_job now db "fetch_emails" {} 1

/-! ## Email safety check (`gpt_service.check_email_safety`, lines 630-715) -/

/-- The JSON verdict the safety classifier is instructed to return; a
missing key corresponds to `none` (Python `dict.get` default). -/
structure SafetyData where
  is_safe : Option Bool := none
  issues_found : List String := []
  severity : Option String := none
  recommendation : Option String := none
  explanation : Option String := none
  deriving Repr, DecidableEq

/-- The unsafe-branch reason string of `check_email_safety`:
`"[SEVERITY] explanation"` plus an `" Issues: ..."` suffix when any were
found. -/
def safetyReason (data : SafetyData) : String :=
  let explanation := data.explanation.getD "Safety check failed"
  let severity := data.severity.getD "unknown"
  let reason := "[" ++ severity.toUpper ++ "] " ++ explanation
  if data.issues_found.isEmpty then reason
  else reason ++ " Issues: " ++ String.intercalate ", " data.issues_found

/-- `check_email_safety` (`gpt_service.py` 630-715), abstracted over the
outcome of the classifier call: `.error e` models the model call or JSON
parse raising `e`; `.ok data` the parsed verdict.  Returns
`(is_safe, reason_if_unsafe)`.  Passing requires `is_safe` truthy AND
`recommendation == "APPROVE"`; a raised exception fails closed. -/
def check_email_safety (classifierCall : Except String SafetyData) :
    Bool × Option String :=
  match classifierCall with
  | Except.error e => (false, some ("Safety check system error: " ++ e))
  | Except.ok data =>
    let is_safe := data.is_safe.getD false && data.recommendation == some "APPROVE"
    if is_safe then (true, none)
    else (false, some (safetyReason data))

/-! ## Send-reply handler (`handle_send_reply`, `worker.py` 331-398) -/

/-- Python truthiness of an optional string column: `None` and `""` are
falsy. -/
def strPresent : Option String → Bool
  | none => false
  | some s => s ≠ ""

/-- `query(SantaReply).filter(id == rid).first()`. -/
def findReply (db : DB) (rid : Nat) : Option SantaReply :=
  db.replies.find? fun r => r.id == rid

/-- `query(Letter).filter(id == lid).first()`. -/
def findLetter (db : DB) (lid : Nat) : Option Letter :=
  db.letters.find? fun l => l.id == lid

/-- `query(Child).filter(id == cid).first()`. -/
def findChild (db : DB) (cid : Nat) : Option Child :=
  db.children.find? fun c => c.id == cid

/-- In-place ORM mutation of the reply row with id `rid`. -/
def updateReply (db : DB) (rid : Nat) (f : SantaReply → SantaReply) : DB :=
  { db with replies := db.replies.map fun r => if r.id == rid then f r else r }

/-- The subject line `f"Re: {letter.subject or 'Your letter to Santa'}"`. -/
def replySubject (letter : Letter) : String :=
  "Re: " ++ (if strPresent letter.subject then letter.subject.getD "" else "Your letter to Santa")

/-- `handle_send_reply(db, payload)` (`worker.py` 331-398).  `safetyEnabled`
is `settings.email_safety_check_enabled`; `classifierCall` the outcome of
the safety classifier invocation on this reply; `transportOk` the boolean
returned by `email_service.send_santa_reply`.  `.error (msg, db)` models
the handler raising `msg` with the store as the session leaves it. -/
def handle_send_reply (now : Nat) (safetyEnabled : Bool)
    (classifierCall : Except String SafetyData) (transportOk : Bool)
    (payload : Payload) (db : DB) : Except (String × DB) DB :=
  match payload.reply_id with
  | none => Except.error ("Missing reply_id in payload", db)
  | some rid =>
  match findReply db rid with
  | none => Except.error ("Reply " ++ toString rid ++ " not found", db)
  | some reply =>
  match findLetter db reply.letter_id with
  | none => Except.error ("Missing data for reply " ++ toString rid, db)
  | some letter =>
  match findChild db letter.child_id with
  | none => Except.error ("Missing data for reply " ++ toString rid, db)
  | some child =>
  if ¬ strPresent letter.from_email then
    Except.error ("Missing data for reply " ++ toString rid, db)
  else
    let gate : Option String :=
      if safetyEnabled then
        let (is_safe, reason) := check_email_safety classifierCall
        if ¬ is_safe then some (reason.getD "None") else none
      else none
    match gate with
    | some reason =>
      -- blocked for safety: record and return without raising
      Except.ok (updateReply db rid fun r =>
        { r with delivery_status := "blocked",
                 delivery_error := some ("Safety check failed: " ++ reason) })
    | none =>
      let send : MailSend :=
        { to_email := letter.from_email.getD "", subject := replySubject letter,
          body_text := reply.body_text }
      let db := { db with mailSends := db.mailSends ++ [send] }
      if transportOk then
        let db := updateReply db rid fun r =>
          { r with delivery_status := "sent", sent_at := some now }
        Except.ok { db with
          sentEmails := db.sentEmails ++
            [{ id := db.nextId, child_id := child.id, email_type := "letter_reply",
               subject := replySubject letter, body_text := reply.body_text,
               letter_id := some letter.id, santa_reply_id := some reply.id,
               delivery_status := "sent" }]
          nextId := db.nextId + 1 }
      else
        let db := updateReply db rid fun r =>
          { r with delivery_status := "failed",
                   delivery_error := some "Failed to send email" }
        Except.error ("Failed to send email", db)

/-! ## Fetch-emails handler (`handle_fetch_emails`, `worker.py` 111-174) -/

/-- One message of the batch returned by
`email_service.fetch_new_emails()`. -/
structure IncomingEmail where
  message_id : String
  from_email : String
  subject : Option String := none
  body_text : String := ""
  body_html : Option String := none
  received_at : Nat := 0
  deriving Repr, DecidableEq

/-- Python `str.lower()`, character-wise. -/
def pyLower (s : String) : String := ⟨s.data.map Char.toLower⟩

/-- Python `str.strip()`: drop leading and trailing whitespace. -/
def pyStrip (s : String) : String :=
  ⟨((s.data.dropWhile Char.isWhitespace).reverse.dropWhile Char.isWhitespace).reverse⟩

/-- `email_msg.from_email.lower().strip()` (`worker.py` 130). -/
def normalizeEmail (s : String) : String := pyStrip (pyLower s)

/-- The Christmas-year computation (`worker.py` 148-149):
`now.year if now.month >= 10 else now.year` — both branches yield the
current year. -/
def christmasYear (month year : Nat) : Nat :=
  if month ≥ 10 then year else year

/-- The creation path of the fetch loop (`worker.py` 151-174): create the
Letter row, notify the parent, enqueue a `process_letter` job. -/
def createLetterFor (now month year : Nat) (db : DB) (m : IncomingEmail)
    (child : Child) : DB :=
  let letter : Letter :=
    { id := db.nextId, child_id := child.id, year := christmasYear month year,
      subject := m.subject, body_text := m.body_text, body_html := m.body_html,
      received_at := m.received_at, message_id := some m.message_id,
      from_email := some m.from_email, status := "pending" }
  let db := { db with letters := db.letters ++ [letter], nextId := db.nextId + 1 }
  let db := { db with notifications := db.notifications ++
                [{ ntype := "new_letter", child_id := child.id }] }
  enqueue_job now db "process_letter" { letter_id := some letter.id } 0

/-- Processing of one fetched message inside the loop of
`handle_fetch_emails` (`worker.py` 119-174).  `hashEmail` abstracts
`EmailService.hash_email` (SHA-256 of the normalized address); `month`,
`year` the current calendar date.  Skips messages whose `message_id`
already has a Letter, and messages from unregistered senders; otherwise
creates the Letter, notifies the parent and enqueues a `process_letter`
job. -/
def processIncomingEmail (hashEmail : String → String) (now month year : Nat)
    (db : DB) (m : IncomingEmail) : DB :=
  if db.letters.any (fun l => l.message_id == some m.message_id) then db
  else
    match db.children.find? (fun c => c.email_hash == hashEmail (normalizeEmail m.from_email)) with
    | none => db
    | some child => createLetterFor now month year db m child

/-- `handle_fetch_emails(db, payload)` (`worker.py` 111-174): fold the
per-message processing over the fetched batch. -/
def handle_fetch_emails (hashEmail : String → String) (now month year : Nat)
    (db : DB) (batch : List IncomingEmail) : DB :=
  batch.foldl (processIncomingEmail hashEmail now month year) db

/-! ## Process-letter handler (`handle_process_letter`, `worker.py` 177-328) -/

/-- One structured item returned by `gpt_service.extract_wish_items`. -/
structure ExtractedItem where
  raw_text : String
  normalized_name : Option String := none
  category : Option String := none
  deriving Repr, DecidableEq

/-- One flag dict returned by `gpt_service.classify_content`; `none` models
a missing key (Python `dict.get`). -/
structure FlagData where
  ftype : Option String := none
  severity : Option String := none
  excerpt : Option String := none
  confidence : Option Nat := none
  explanation : Option String := none
  deriving Repr, DecidableEq

/-- The result of `gpt_service.classify_content`. -/
structure ModerationResult where
  flags : List FlagData := []
  is_concerning : Bool := false
  deriving Repr, DecidableEq

/-- One result of `product_search.search` (the service catches its own
errors and returns `None` on failure, `product_search_service.py` 108-116,
so the call is total). -/
structure Product where
  estimated_price : Option Nat := none
  currency : Option String := none
  product_url : Option String := none
  image_url : Option String := none
  description : Option String := none
  deriving Repr, DecidableEq

/-- Outcomes of the Language-Model Client calls made by one
`handle_process_letter` invocation.  The call arguments (letter text,
child name, assembled context) only feed the model, so each call is
abstracted by its result: `.error e` models the call raising `e`. -/
structure GptCalls where
  extract_wish_items : Except String (List ExtractedItem)
  classify_content : Except String ModerationResult
  search : String → String → Option Product
  generate_santa_reply : Except String (String × Option String)

/-- In-place ORM mutation of the letter row with id `lid`. -/
def updateLetter (db : DB) (lid : Nat) (f : Letter → Letter) : DB :=
  { db with letters := db.letters.map fun l => if l.id == lid then f l else l }

/-- One iteration of step 1 of the pipeline (`worker.py` 204-212): create
one WishItem row, status pending. -/
def addWishItem (lid : Nat) (db : DB) (item : ExtractedItem) : DB :=
  { db with
      wishItems := db.wishItems ++
        [{ id := db.nextId, letter_id := lid, raw_text := item.raw_text,
           normalized_name := item.normalized_name, category := item.category,
           status := "pending" }]
      nextId := db.nextId + 1 }

/-- Step 1 of the pipeline (`worker.py` 200-214): create one WishItem per
extracted item. -/
def addWishItems (lid : Nat) (items : List ExtractedItem) (db : DB) : DB :=
  items.foldl (addWishItem lid) db

/-- One iteration of step 2 of the pipeline (`worker.py` 225-237): one
ModerationFlag row and one parent notification, with the code's `dict.get`
defaults. -/
def addModerationFlag (lid cid : Nat) (db : DB) (fd : FlagData) : DB :=
  { db with
      flags := db.flags ++
        [{ id := db.nextId, letter_id := lid, flag_type := fd.ftype.getD "unknown",
           severity := fd.severity.getD "medium", excerpt := fd.excerpt,
           ai_confidence := fd.confidence, ai_explanation := fd.explanation }]
      notifications := db.notifications ++ [{ ntype := "moderation_flag", child_id := cid }]
      nextId := db.nextId + 1 }

/-- Step 2 of the pipeline (`worker.py` 225-237): one ModerationFlag row and
one parent notification per returned flag. -/
def addModerationFlags (lid cid : Nat) (flags : List FlagData) (db : DB) : DB :=
  flags.foldl (addModerationFlag lid cid) db

/-- Step 3 of the pipeline (`worker.py` 240-255): enrich every WishItem of
this letter that has a truthy `normalized_name` with the product-search
result, when one is found. -/
def enrichWishItems (lid : Nat) (search : String → String → Option Product)
    (country : String) (db : DB) : DB :=
  { db with
      wishItems := db.wishItems.map fun wi =>
        if wi.letter_id == lid && strPresent wi.normalized_name then
          match search (wi.normalized_name.getD "") country with
          | none => wi
          | some p =>
            { wi with estimated_price := p.estimated_price, currency := p.currency,
                      product_url := p.product_url, product_image_url := p.image_url,
                      product_description := p.description }
        else wi }

/-- The acknowledgment stamp (`worker.py` 316-318) applied to one deed row:
the deeds stamped are exactly this child's completed deeds not yet
acknowledged in any reply (the `completed_deeds` query of lines 265-269). -/
def stampDeed (cid rid : Nat) (d : GoodDeed) : GoodDeed :=
  if d.child_id == cid && d.completed && d.acknowledged_in_reply_id == none then
    { d with acknowledged_in_reply_id := some rid }
  else d

/-- Steps 6-7 of the pipeline (`worker.py` 296-328): create the SantaReply
row, create a GoodDeed when one was suggested, stamp every
completed-but-unacknowledged deed of the child with the new reply's id,
mark the letter processed and enqueue the `send_reply` job. -/
def generateReplyStep (now lid : Nat) (child : Child) (replyText : String)
    (suggestedDeed : Option String) (db : DB) : DB :=
  let santaReply : SantaReply :=
    { id := db.nextId, letter_id := lid, body_text := replyText,
      suggested_deed := suggestedDeed, delivery_status := "pending" }
  let db := { db with replies := db.replies ++ [santaReply], nextId := db.nextId + 1 }
  let db :=
    if strPresent suggestedDeed then
      { db with
          deeds := db.deeds ++
            [{ id := db.nextId, child_id := child.id,
               description := suggestedDeed.getD "",
               suggested_in_reply_id := some santaReply.id }]
          nextId := db.nextId + 1 }
    else db
  let db := { db with deeds := db.deeds.map (stampDeed child.id santaReply.id) }
  let db := updateLetter db lid fun l =>
    { l with status := "processed", processed_at := some now }
  enqueue_job now db "send_reply" { reply_id := some santaReply.id } 0

/-- `handle_process_letter(db, payload)` (`worker.py` 177-328): the ordered
pipeline over one Letter.  `.error (msg, db)` models an exception
propagating out of the handler with the store as the session leaves it
(the status-processing commit of line 198 has already happened). -/
def handle_process_letter (now : Nat) (gpt : GptCalls) (payload : Payload)
    (db : DB) : Except (String × DB) DB :=
  match payload.letter_id with
  | none => Except.error ("Missing letter_id in payload", db)
  | some lid =>
  match findLetter db lid with
  | none => Except.error ("Letter " ++ toString lid ++ " not found", db)
  | some letter =>
  match findChild db letter.child_id with
  | none => Except.error ("Child " ++ toString letter.child_id ++ " not found", db)
  | some child =>
  let db := updateLetter db lid fun l => { l with status := "processing" }
  -- 1. Extract wish items
  match gpt.extract_wish_items with
  | Except.error e => Except.error (e, db)
  | Except.ok extractedItems =>
  let db := addWishItems lid extractedItems db
  -- 2. Content moderation
  match gpt.classify_content with
  | Except.error e => Except.error (e, db)
  | Except.ok moderationResult =>
  let db := addModerationFlags lid child.id moderationResult.flags db
  -- 3. Product search for each item
  let country := if strPresent child.country then child.country.getD "" else "US"
  let db := enrichWishItems lid gpt.search country db
  -- 4. Generate Santa's reply, acknowledge deeds, finalize
  match gpt.generate_santa_reply with
  | Except.error e => Except.error (e, db)
  | Except.ok (replyText, suggestedDeed) =>
    Except.ok (generateReplyStep now lid child replyText suggestedDeed db)

/-! ## Deed send handlers (`worker.py` 402-578) -/

/-- `query(GoodDeed).filter(id == did).first()`. -/
def findDeed (db : DB) (did : Nat) : Option GoodDeed :=
  db.deeds.find? fun d => d.id == did

/-- Keep the later-received of the accumulator and the next letter (ties
resolve to the accumulator). -/
def laterLetter (acc : Option Letter) (l : Letter) : Option Letter :=
  match acc with
  | none => some l
  | some b => if b.received_at < l.received_at then some l else some b

/-- `query(Letter).filter(child_id == cid).order_by(received_at.desc()).first()`
(`worker.py` 419-421, 508-510): the child's most recently received letter,
ties resolving to the earlier row of the table. -/
def lastLetterOf (db : DB) (cid : Nat) : Option Letter :=
  (db.letters.filter fun l => l.child_id == cid).foldl laterLetter none

/-- Shared tail of the two deed send handlers (`worker.py` 439-488 and
529-578): safety-gate the generated body, then either record a blocked
SentEmail audit row and stop, or dispatch and record the outcome. -/
def sendDeedEmailBody (safetyEnabled : Bool) (classifierCall : Except String SafetyData)
    (transportOk : Bool) (emailType subject failMsg : String) (deed : GoodDeed)
    (child : Child) (toEmail : String) (emailBody : String) (db : DB) :
    Except (String × DB) DB :=
  let gate : Bool :=
    if safetyEnabled then ¬ (check_email_safety classifierCall).1 else false
  if gate then
    -- blocked for safety: record the audit row and return without raising
    Except.ok { db with
      sentEmails := db.sentEmails ++
        [{ id := db.nextId, child_id := child.id, email_type := emailType,
           subject := subject, body_text := emailBody, deed_id := some deed.id,
           delivery_status := "blocked" }]
      nextId := db.nextId + 1 }
  else
    let db := { db with mailSends := db.mailSends ++
                  [{ to_email := toEmail, subject := subject, body_text := emailBody }] }
    if transportOk then
      Except.ok { db with
        sentEmails := db.sentEmails ++
          [{ id := db.nextId, child_id := child.id, email_type := emailType,
             subject := subject, body_text := emailBody, deed_id := some deed.id,
             delivery_status := "sent" }]
        nextId := db.nextId + 1 }
    else
      Except.error (failMsg, db)

/-- `handle_send_deed_email(db, payload)` (`worker.py` 402-488).
`generated` is the outcome of `gpt_service.generate_deed_email`;
`classifierCall` and `transportOk` as in `handle_send_reply`.  When the
child's latest letter is missing or has no sender address the handler
returns with no effect at all. -/
def handle_send_deed_email (safetyEnabled : Bool)
    (generated : Except String String) (classifierCall : Except String SafetyData)
    (transportOk : Bool) (payload : Payload) (db : DB) : Except (String × DB) DB :=
  match payload.deed_id with
  | none => Except.error ("Missing deed_id in payload", db)
  | some did =>
  match findDeed db did with
  | none => Except.error ("Deed " ++ toString did ++ " not found", db)
  | some deed =>
  match findChild db deed.child_id with
  | none => Except.error ("Child " ++ toString deed.child_id ++ " not found", db)
  | some child =>
  match lastLetterOf db child.id with
  | none => Except.ok db
  | some lastLetter =>
  if ¬ strPresent lastLetter.from_email then Except.ok db
  else
    match generated with
    | Except.error e => Except.error (e, db)
    | Except.ok emailBody =>
      sendDeedEmailBody safetyEnabled classifierCall transportOk
        "deed_suggestion" "A Special Message from Santa! 🎅"
        "Failed to send deed notification email"
        deed child (lastLetter.from_email.getD "") emailBody db

/-- `handle_send_deed_congrats(db, payload)` (`worker.py` 491-578): same
shape as the deed-suggestion handler with the congratulations email type,
subject and failure message. -/
def handle_send_deed_congrats (safetyEnabled : Bool)
    (generated : Except String String) (classifierCall : Except String SafetyData)
    (transportOk : Bool) (payload : Payload) (db : DB) : Except (String × DB) DB :=
  match payload.deed_id with
  | none => Except.error ("Missing deed_id in payload", db)
  | some did =>
  match findDeed db did with
  | none => Except.error ("Deed " ++ toString did ++ " not found", db)
  | some deed =>
  match findChild db deed.child_id with
  | none => Except.error ("Child " ++ toString deed.child_id ++ " not found", db)
  | some child =>
  match lastLetterOf db child.id with
  | none => Except.ok db
  | some lastLetter =>
  if ¬ strPresent lastLetter.from_email then Except.ok db
  else
    match generated with
    | Except.error e => Except.error (e, db)
    | Except.ok emailBody =>
      sendDeedEmailBody safetyEnabled classifierCall transportOk
        "deed_congrats" "🎉 Santa is SO PROUD of You! 🎉"
        "Failed to send deed congratulations email"
        deed child (lastLetter.from_email.getD "") emailBody db

/-- `children.find?` succeeds for this message's sender hash: the
membership test used by the fetch handler (`worker.py` 140-145). -/
def childMatched (children : List Child) (hashEmail : String → String)
    (m : IncomingEmail) : Bool :=
  (children.find? fun c => c.email_hash == hashEmail (normalizeEmail m.from_email)).isSome

/-- The number of Letter rows carrying a given transport message id. -/
def countLettersWithMsg (db : DB) (mid : String) : Nat :=
  (db.letters.filter fun l => l.message_id == some mid).length

/-- The module-level handler registry lookup `TASK_HANDLERS.get`
(`worker.py` 582-593), with every registered handler succeeding. -/
def registryLookup : String → Option (Except String Unit) :=
  fun t => if taskHandlerTypes.contains t then some (Except.ok ()) else none

/-! ## Concrete fixtures used to evaluate the embedding -/

def exChild : Child :=
  { id := 0, family_id := 0, name := "Emma", email_hash := "h0" }

def exLetter : Letter :=
  { id := 1, child_id := 0, year := 2025, subject := some "Dear Santa",
    body_text := "I wish for a bicycle", received_at := 2,
    message_id := some "<m0@mail>", from_email := some "kid@example.com" }

def exReply : SantaReply :=
  { id := 2, letter_id := 1, body_text := "Ho ho ho!" }

def exDB : DB :=
  { letters := [exLetter], children := [exChild], replies := [exReply], nextId := 3 }

/-- A classifier verdict that approves the content. -/
def safeVerdict : SafetyData :=
  { is_safe := some true, severity := some "none",
    recommendation := some "APPROVE", explanation := some "fine" }

/-- A classifier verdict that is not safe. -/
def unsafeVerdict : SafetyData :=
  { is_safe := some false, severity := some "high",
    recommendation := some "BLOCK", explanation := some "not appropriate" }

/-- Language-model calls whose extraction step raises. -/
def exGptFail : GptCalls :=
  { extract_wish_items := Except.error "LLM call failed",
    classify_content := Except.ok {}, search := fun _ _ => none,
    generate_santa_reply := Except.ok ("", none) }

def exUnknownJob : Job :=
  { id := 7, task_type := "send_pigeon", status := "processing",
    attempts := 1, max_attempts := 3, created_at := 0 }

def exFailJob : Job :=
  { id := 8, task_type := "process_letter", status := "pending",
    attempts := 0, max_attempts := 3, created_at := 0, scheduled_for := 0 }

def jobLo : Job :=
  { id := 1, task_type := "process_letter", priority := 1, created_at := 0 }

def jobHi : Job :=
  { id := 2, task_type := "fetch_emails", priority := 5, created_at := 1 }

def wChild : Child :=
  { id := 10, family_id := 1, name := "Max", email_hash := "h10" }

def wLetter : Letter :=
  { id := 11, child_id := 10, year := 2025, body_text := "hello Santa",
    received_at := 5 }

def wDeedA : GoodDeed :=
  { id := 20, child_id := 10, description := "fed the cat", completed := true }

def wDeedB : GoodDeed :=
  { id := 21, child_id := 10, description := "helped cook", completed := true }

def wDeedC : GoodDeed :=
  { id := 22, child_id := 10, description := "raked leaves", completed := true,
    acknowledged_in_reply_id := some 3 }

def wDeedD : GoodDeed :=
  { id := 23, child_id := 10, description := "tidy the room", completed := false }

def wDB : DB :=
  { letters := [wLetter], children := [wChild],
    deeds := [wDeedA, wDeedB, wDeedC, wDeedD], nextId := 30 }

/-- Language-model calls for a fully successful pipeline run. -/
def wGpt : GptCalls :=
  { extract_wish_items := Except.ok [],
    classify_content := Except.ok {}, search := fun _ _ => none,
    generate_santa_reply := Except.ok ("Ho ho ho!", some "help set the table") }

/-- A stand-in for the SHA-256 digest (the claims never depend on its
value, only on equality of hashes). -/
def exHash : String → String := fun s => "sha256:" ++ s

def fChild : Child :=
  { id := 40, family_id := 2, name := "Lina",
    email_hash := "sha256:lina@example.com" }

def fEmail : IncomingEmail :=
  { message_id := "<m1@mail>", from_email := "Lina@Example.com ",
    body_text := "I wish for a bike", received_at := 3 }

def fDB : DB := { children := [fChild] }

def sChild : Child :=
  { id := 51, family_id := 3, name := "Ben", email_hash := "h51" }

def sDeed : GoodDeed := { id := 50, child_id := 51, description := "smiled" }

def sLetter : Letter :=
  { id := 52, child_id := 51, year := 2025, body_text := "hi",
    received_at := 9, from_email := none }

def sDB : DB :=
  { letters := [sLetter], children := [sChild], deeds := [sDeed] }

/-! # Theorems -/

/-! ## C8: scheduler never duplicates the fetch job -/

lemma fetchJobOutstanding_iff (jobs : List Job) :
    fetchJobOutstanding jobs = true ↔
      ∃ j ∈ jobs, j.task_type = "fetch_emails" ∧
        (j.status = "pending" ∨ j.status = "processing") := by
  simp [fetchJobOutstanding, List.any_eq_true, Bool.and_eq_true, Bool.or_eq_true]

/-- C8: each scheduler cycle enqueues a new `fetch_emails` job if and only
if no `fetch_emails` job currently exists in pending or processing state;
when one exists the store is left untouched, so no second concurrent fetch
job is ever created. -/
theorem scheduler_cycle_enqueues_iff_no_outstanding (now : Nat) (db : DB) :
    ((∃ j ∈ db.jobs, j.task_type = "fetch_emails" ∧
        (j.status = "pending" ∨ j.status = "processing")) →
      schedulerCycle now db = db) ∧
    ((¬ ∃ j ∈ db.jobs, j.task_type = "fetch_emails" ∧
        (j.status = "pending" ∨ j.status = "processing")) →
      schedulerCycle now db =
        { db with
            jobs := db.jobs ++
              [{ id := db.nextId, task_type := "fetch_emails", payload := {},
                 priority := 1, created_at := now, scheduled_for := now }]
            nextId := db.nextId + 1 }) := by
  constructor
  · intro hex
    have h : fetchJobOutstanding db.jobs = true := (fetchJobOutstanding_iff db.jobs).mpr hex
    simp [schedulerCycle, h]
  · intro hnotex
    have h : fetchJobOutstanding db.jobs = false := by
      by_contra hne
      exact hnotex ((fetchJobOutstanding_iff db.jobs).mp (by
        cases hb : fetchJobOutstanding db.jobs with
        | true => rfl
        | false => exact absurd hb hne))
    simp [schedulerCycle, h, enqueue_job]

/-- Witness for C8 at a concrete store: no fetch job is outstanding in
`exDB` (its job table is empty), so a cycle enqueues exactly one. -/
theorem scheduler_cycle_enqueues_iff_no_outstanding_witness :
    (¬ ∃ j ∈ exDB.jobs, j.task_type = "fetch_emails" ∧
        (j.status = "pending" ∨ j.status = "processing")) ∧
    schedulerCycle 0 exDB =
      { exDB with
          jobs := exDB.jobs ++
            [{ id := exDB.nextId, task_type := "fetch_emails", payload := {},
               priority := 1, created_at := 0, scheduled_for := 0 }]
          nextId := exDB.nextId + 1 } :=
  ⟨by simp [exDB], (scheduler_cycle_enqueues_iff_no_outstanding 0 exDB).2 (by simp [exDB])⟩

/-! ## C2: safety check passes iff `is_safe` and `APPROVE`; fails closed -/

/-- C2: the email safety check passes exactly when the classifier returned
`is_safe = true` and `recommendation = "APPROVE"`; when the classifier
call itself raises, the check returns unsafe (fail closed), and the
send-reply handler then blocks the send and returns without raising, so
the job does not fail and consumes no retry. -/
theorem check_email_safety_pass_iff (call : Except String SafetyData) :
    ((check_email_safety call).1 = true ↔
      ∃ data, call = Except.ok data ∧ data.is_safe = some true ∧
        data.recommendation = some "APPROVE") ∧
    (∀ e, (check_email_safety (Except.error e)).1 = false ∧
      (check_email_safety (Except.error e)).2 =
        some ("Safety check system error: " ++ e)) ∧
    (∀ e now transportOk payload db rid reply letter child,
      payload.reply_id = some rid → findReply db rid = some reply →
      findLetter db reply.letter_id = some letter →
      findChild db letter.child_id = some child →
      strPresent letter.from_email = true →
      ∃ db', handle_send_reply now true (Except.error e) transportOk payload db =
          Except.ok db' ∧ db'.mailSends = db.mailSends) := by
  refine ⟨?_, ?_, ?_⟩
  · cases call with
    | error e => simp [check_email_safety]
    | ok data =>
      by_cases hsafe : (data.is_safe.getD false && data.recommendation == some "APPROVE") = true
      · simp only [check_email_safety, hsafe, if_true]
        constructor
        · intro _
          rcases Bool.and_eq_true .. |>.mp hsafe with ⟨h1, h2⟩
          refine ⟨data, rfl, ?_, beq_iff_eq.mp h2⟩
          cases hval : data.is_safe with
          | none => rw [hval] at h1; simp at h1
          | some b => rw [hval] at h1; simp at h1; rw [h1]
        · intro _; trivial
      · simp only [check_email_safety, hsafe, if_false]
        constructor
        · intro h; simp at h
        · rintro ⟨data', hdata', h1, h2⟩
          injection hdata' with hd
          subst hd
          rw [h1, h2] at hsafe
          simp at hsafe
  · intro e; exact ⟨rfl, rfl⟩
  · intro e now transportOk payload db rid reply letter child hpid hr hl hc hfrom
    clear call
    refine ⟨updateReply db rid fun r =>
      { r with delivery_status := "blocked",
               delivery_error := some ("Safety check failed: " ++
                 ("Safety check system error: " ++ e)) },
      ?_, rfl⟩
    simp only [handle_send_reply, hpid, hr, hl, hc, hfrom]
    simp [check_email_safety]

/-- Witness for C2: a concrete approving verdict passes the check, and a
concrete classifier exception leaves the send-reply job completing
without any transport call. -/
theorem check_email_safety_pass_iff_witness :
    (check_email_safety (Except.ok safeVerdict)).1 = true ∧
    (∃ db', handle_send_reply 0 true (Except.error "timeout") true
        { reply_id := some 2 } exDB = Except.ok db' ∧
      db'.mailSends = exDB.mailSends) :=
  ⟨(check_email_safety_pass_iff (Except.ok safeVerdict)).1.mpr ⟨safeVerdict, rfl, rfl, rfl⟩,
   (check_email_safety_pass_iff (Except.ok safeVerdict)).2.2 "timeout" 0 true
     { reply_id := some 2 } exDB 2 exReply exLetter exChild rfl rfl rfl rfl (by decide)⟩

/-! ## C6: unknown task type (corrected: it is retried, not terminal) -/

/-- Counterexample to C6 as stated: a claimed job with an unregistered
task type and `attempts = 1 < max_attempts = 3` is returned to `pending`
by the dispatch layer (it will be retried), not made a terminal failure. -/
theorem process_job_unknown_type_counterexample :
    (process_job 5 registryLookup exUnknownJob).status = "pending" ∧
    (process_job 5 registryLookup exUnknownJob).error_message =
      some "Unknown task type: send_pigeon" := by
  constructor <;> rfl

/-- C6 amended: dispatch of a claimed job with no registered handler
records the unknown-task-type reason in `error_message` and fails the
attempt through the ordinary failure path: the job returns to `pending`
while `attempts < max_attempts` and becomes `failed` only once
`attempts ≥ max_attempts`. -/
theorem process_job_unknown_type_spec (now : Nat)
    (handlers : String → Option (Except String Unit)) (j : Job)
    (h : handlers j.task_type = none) :
    process_job now handlers j =
      complete_job now j false (some ("Unknown task type: " ++ j.task_type)) ∧
    (process_job now handlers j).error_message =
      some ("Unknown task type: " ++ j.task_type) ∧
    (process_job now handlers j).status =
      (if j.attempts ≥ j.max_attempts then "failed" else "pending") := by
  refine ⟨by simp [process_job, h], ?_, ?_⟩ <;>
    (simp only [process_job, h, complete_job, Bool.false_eq_true, if_false]
     split <;> simp_all)

/-- Witness for C6 amended, at the concrete unknown-type job. -/
theorem process_job_unknown_type_spec_witness :
    registryLookup exUnknownJob.task_type = none ∧
    (process_job 5 registryLookup exUnknownJob).status =
      (if exUnknownJob.attempts ≥ exUnknownJob.max_attempts then "failed" else "pending") :=
  ⟨rfl, (process_job_unknown_type_spec 5 registryLookup exUnknownJob rfl).2.2⟩

/-! ## C3: the claim protocol -/

lemma jobPrecedes_irrefl (a : Job) : jobPrecedes a a = false := by
  simp [jobPrecedes]

lemma jobPrecedes_asymm {a b : Job} (h : jobPrecedes a b = true) :
    jobPrecedes b a = false := by
  simp [jobPrecedes] at h ⊢
  omega

lemma jobPrecedes_false_trans {a b c : Job} (h1 : jobPrecedes a b = false)
    (h2 : jobPrecedes b c = false) : jobPrecedes a c = false := by
  simp [jobPrecedes] at h1 h2 ⊢
  omega

lemma jobPrecedes_eq_false_iff {a b : Job} :
    jobPrecedes a b = false ↔
      a.priority ≤ b.priority ∧
        (a.priority = b.priority → b.created_at ≤ a.created_at) := by
  simp [jobPrecedes]

lemma selectNext_eq_none_iff (now : Nat) (l : List Job) :
    selectNext now l = none ↔ ∀ j ∈ l, jobEligible now j = false := by
  induction l with
  | nil => simp [selectNext]
  | cons a rest ih =>
    by_cases ha : jobEligible now a = true
    · simp only [selectNext, ha, if_true]
      cases hsel : selectNext now rest with
      | none => simp [pickBetter, ha, List.forall_mem_cons]
      | some b =>
        constructor
        · intro hcontra
          simp only [pickBetter] at hcontra
          split at hcontra <;> simp at hcontra
        · intro hall
          exact absurd (hall a (List.mem_cons_self _ _)) (by simp [ha])
    · have ha' : jobEligible now a = false := by
        cases hb : jobEligible now a with
        | true => exact absurd hb ha
        | false => rfl
      simp [selectNext, ha', ih]

lemma selectNext_spec (now : Nat) (l : List Job) (j : Job)
    (h : selectNext now l = some j) :
    j ∈ l ∧ jobEligible now j = true ∧
      ∀ k ∈ l, jobEligible now k = true → jobPrecedes k j = false := by
  induction l generalizing j with
  | nil => simp [selectNext] at h
  | cons a rest ih =>
    by_cases ha : jobEligible now a = true
    · simp only [selectNext, ha, if_true] at h
      cases hsel : selectNext now rest with
      | none =>
        rw [hsel] at h
        simp only [pickBetter] at h
        injection h with h
        subst h
        have hnone := (selectNext_eq_none_iff now rest).mp hsel
        refine ⟨List.mem_cons_self _ _, ha, ?_⟩
        intro k hk hke
        rcases List.mem_cons.mp hk with rfl | hk
        · exact jobPrecedes_irrefl _
        · rw [hnone k hk] at hke
          exact absurd hke (by simp)
      | some b =>
        rw [hsel] at h
        simp only [pickBetter] at h
        obtain ⟨hbmem, hbel, hbmax⟩ := ih b hsel
        by_cases hba : jobPrecedes b a = true
        · rw [if_pos hba] at h
          injection h with h
          subst h
          refine ⟨List.mem_cons_of_mem _ hbmem, hbel, ?_⟩
          intro k hk hke
          rcases List.mem_cons.mp hk with rfl | hk
          · exact jobPrecedes_asymm hba
          · exact hbmax k hk hke
        · have hba' : jobPrecedes b a = false := by
            cases hb : jobPrecedes b a with
            | true => exact absurd hb hba
            | false => rfl
          rw [if_neg hba] at h
          injection h with h
          subst h
          refine ⟨List.mem_cons_self _ _, ha, ?_⟩
          intro k hk hke
          rcases List.mem_cons.mp hk with rfl | hk
          · exact jobPrecedes_irrefl _
          · exact jobPrecedes_false_trans (hbmax k hk hke) hba'
    · have ha' : jobEligible now a = false := by
        cases hb : jobEligible now a with
        | true => exact absurd hb ha
        | false => rfl
      simp only [selectNext, ha', Bool.false_eq_true, if_false] at h
      obtain ⟨hmem, hel, hmax⟩ := ih j h
      refine ⟨List.mem_cons_of_mem _ hmem, hel, ?_⟩
      intro k hk hke
      rcases List.mem_cons.mp hk with rfl | hk
      · rw [ha'] at hke
        exact absurd hke (by simp)
      · exact hmax k hk hke

/-- C3: `claim_next_job` returns a pending job that is eligible (pending,
due and with attempts remaining), maximal under (priority DESC, created_at
ASC) among all eligible jobs, transitioned to processing with `started_at`
stamped and `attempts` incremented, leaving every other row unchanged;
when no job is eligible it returns the no-job sentinel and changes
nothing. -/
theorem claim_next_job_spec (now : Nat) (jobs : List Job) :
    (∀ j jobs', claim_next_job now jobs = (some j, jobs') →
      ∃ j0, j0 ∈ jobs ∧ jobEligible now j0 = true ∧
        j = claimUpdate now j0 ∧
        j.status = "processing" ∧ j.started_at = some now ∧
        j.attempts = j0.attempts + 1 ∧
        (∀ k ∈ jobs, jobEligible now k = true →
          k.priority ≤ j0.priority ∧
            (k.priority = j0.priority → j0.created_at ≤ k.created_at)) ∧
        jobs' = jobs.map (fun k => if k.id == j0.id then claimUpdate now j0 else k) ∧
        (∀ k ∈ jobs, k.id ≠ j0.id → k ∈ jobs')) ∧
    ((∀ j ∈ jobs, jobEligible now j = false) →
      claim_next_job now jobs = (none, jobs)) := by
  constructor
  · intro j jobs' h
    unfold claim_next_job at h
    cases hsel : selectNext now jobs with
    | none =>
      rw [hsel] at h
      simp at h
    | some j0 =>
      rw [hsel] at h
      obtain ⟨hmem, hel, hmax⟩ := selectNext_spec now jobs j0 hsel
      simp only [Prod.mk.injEq, Option.some.injEq] at h
      obtain ⟨hj, hjobs'⟩ := h
      subst hj
      refine ⟨j0, hmem, hel, rfl, rfl, rfl, rfl, ?_, hjobs'.symm, ?_⟩
      · intro k hk hke
        exact jobPrecedes_eq_false_iff.mp (hmax k hk hke)
      · intro k hk hne
        rw [← hjobs']
        have hf : (if k.id == j0.id then claimUpdate now j0 else k) = k := by
          rw [if_neg]
          simp [hne]
        rw [List.mem_map]
        exact ⟨k, hk, hf⟩
  · intro hnone
    unfold claim_next_job
    rw [(selectNext_eq_none_iff now jobs).mpr hnone]

/-- Witness for C3: at `now = 10` on the two-job table
`[jobLo, jobHi]`, the priority-5 job is claimed and transitioned, the
priority-1 row is untouched. -/
theorem claim_next_job_spec_witness :
    claim_next_job 10 [jobLo, jobHi] =
      (some (claimUpdate 10 jobHi), [jobLo, claimUpdate 10 jobHi]) ∧
    ∃ j0, j0 ∈ [jobLo, jobHi] ∧ jobEligible 10 j0 = true ∧
      claimUpdate 10 jobHi = claimUpdate 10 j0 ∧
      (claimUpdate 10 jobHi).status = "processing" ∧
      (claimUpdate 10 jobHi).started_at = some 10 ∧
      (claimUpdate 10 jobHi).attempts = j0.attempts + 1 ∧
      (∀ k ∈ [jobLo, jobHi], jobEligible 10 k = true →
        k.priority ≤ j0.priority ∧
          (k.priority = j0.priority → j0.created_at ≤ k.created_at)) ∧
      [jobLo, claimUpdate 10 jobHi] =
        [jobLo, jobHi].map (fun k => if k.id == j0.id then claimUpdate 10 j0 else k) ∧
      (∀ k ∈ [jobLo, jobHi], k.id ≠ j0.id → k ∈ [jobLo, claimUpdate 10 jobHi]) :=
  ⟨rfl, (claim_next_job_spec 10 [jobLo, jobHi]).1 (claimUpdate 10 jobHi)
    [jobLo, claimUpdate 10 jobHi] rfl⟩

/-! ## C4: retry exhaustion -/

lemma workerStep_failed_fixed (now : Nat) (handlers : String → Option (Except String Unit))
    (j : Job) (h : j.status = "failed") : workerStep now handlers j = j := by
  simp [workerStep, jobEligible, h]

lemma workerStep_alwaysRaise_trace (now : Nat) (msg : String) (j : Job)
    (hstatus : j.status = "pending") (hatt : j.attempts = 0)
    (hsched : j.scheduled_for ≤ now) (hmax : 1 ≤ j.max_attempts) :
    ∀ k, k ≤ j.max_attempts →
      ((workerStep now (alwaysRaise msg))^[k] j).attempts = k ∧
      ((workerStep now (alwaysRaise msg))^[k] j).status =
        (if k < j.max_attempts then "pending" else "failed") ∧
      ((workerStep now (alwaysRaise msg))^[k] j).scheduled_for = j.scheduled_for ∧
      ((workerStep now (alwaysRaise msg))^[k] j).max_attempts = j.max_attempts ∧
      (k = 0 ∨ ((workerStep now (alwaysRaise msg))^[k] j).error_message = some msg) := by
  intro k
  induction k with
  | zero =>
    intro _
    refine ⟨by simpa using hatt, ?_, by simp, by simp, Or.inl rfl⟩
    rw [Function.iterate_zero_apply, if_pos (lt_of_lt_of_le Nat.zero_lt_one hmax)]
    exact hstatus
  | succ k ih =>
    intro hk1
    have hklt : k < j.max_attempts := hk1
    obtain ⟨ia, is, isch, imax, _⟩ := ih (Nat.le_of_succ_le hk1)
    rw [Function.iterate_succ_apply']
    have is' : ((workerStep now (alwaysRaise msg))^[k] j).status = "pending" := by
      rw [is, if_pos hklt]
    have hel : jobEligible now ((workerStep now (alwaysRaise msg))^[k] j) = true := by
      simp [jobEligible, is', ia, imax, isch, hsched, hklt]
    rw [workerStep, if_pos hel]
    simp only [process_job, alwaysRaise, complete_job, claimUpdate, ia, isch, imax,
      Bool.false_eq_true, if_false]
    by_cases hend : j.max_attempts ≤ k + 1
    · have : ¬ k + 1 < j.max_attempts := by omega
      simp [hend, this]
    · have : k + 1 < j.max_attempts := by omega
      simp [hend, this]

/-- C4: a job whose handler raises on every invocation is claimed and
executed exactly `max_attempts` times: after `max_attempts` worker
iterations its attempts counter equals `max_attempts`, its status is
`failed` with the error recorded, every later iteration leaves it
unchanged, and in no reachable state is its status `completed`. -/
theorem retry_exhaustion (now : Nat) (msg : String) (j : Job)
    (hstatus : j.status = "pending") (hatt : j.attempts = 0)
    (hsched : j.scheduled_for ≤ now) (hmax : 1 ≤ j.max_attempts) :
    ((workerStep now (alwaysRaise msg))^[j.max_attempts] j).attempts = j.max_attempts ∧
    ((workerStep now (alwaysRaise msg))^[j.max_attempts] j).status = "failed" ∧
    ((workerStep now (alwaysRaise msg))^[j.max_attempts] j).error_message = some msg ∧
    (∀ n, j.max_attempts ≤ n →
      (workerStep now (alwaysRaise msg))^[n] j =
        (workerStep now (alwaysRaise msg))^[j.max_attempts] j) ∧
    (∀ n, ((workerStep now (alwaysRaise msg))^[n] j).status ≠ "completed") := by
  have htr := workerStep_alwaysRaise_trace now msg j hstatus hatt hsched hmax
  obtain ⟨ha, hs, _, _, herr⟩ := htr j.max_attempts (le_refl _)
  have hs' : ((workerStep now (alwaysRaise msg))^[j.max_attempts] j).status = "failed" := by
    rw [hs, if_neg (lt_irrefl _)]
  have herr' : ((workerStep now (alwaysRaise msg))^[j.max_attempts] j).error_message
      = some msg := by
    rcases herr with h0 | h
    · omega
    · exact h
  have hfix : ∀ n, j.max_attempts ≤ n →
      (workerStep now (alwaysRaise msg))^[n] j =
        (workerStep now (alwaysRaise msg))^[j.max_attempts] j := by
    intro n hn
    obtain ⟨m, rfl⟩ := Nat.exists_eq_add_of_le hn
    rw [Nat.add_comm, Function.iterate_add_apply]
    exact Function.iterate_fixed (workerStep_failed_fixed now _ _ hs') m
  refine ⟨ha, hs', herr', hfix, ?_⟩
  intro n
  by_cases hn : n ≤ j.max_attempts
  · obtain ⟨_, hsn, _, _, _⟩ := htr n hn
    rw [hsn]
    split <;> simp
  · rw [hfix n (by omega), hs']
    simp

/-- Witness for C4: the concrete always-failing job reaches `failed` with
3 attempts after 3 worker iterations. -/
theorem retry_exhaustion_witness :
    exFailJob.status = "pending" ∧ exFailJob.attempts = 0 ∧
    exFailJob.scheduled_for ≤ 5 ∧ 1 ≤ exFailJob.max_attempts ∧
    ((workerStep 5 (alwaysRaise "boom"))^[exFailJob.max_attempts] exFailJob).attempts =
      exFailJob.max_attempts ∧
    ((workerStep 5 (alwaysRaise "boom"))^[exFailJob.max_attempts] exFailJob).status =
      "failed" :=
  ⟨rfl, rfl, by decide, by decide,
   (retry_exhaustion 5 "boom" exFailJob rfl rfl (by decide) (by decide)).1,
   (retry_exhaustion 5 "boom" exFailJob rfl rfl (by decide) (by decide)).2.1⟩

/-! ## C1: the blocked send-reply path (corrected: no SentEmail audit row) -/

/-- Counterexample to C1 as stated: in a concrete blocked `send_reply` run
(classifier verdict not safe, safety checking enabled) the handler
completes without raising and blocks the reply, but writes ZERO SentEmail
audit rows — not exactly one with status `blocked`. -/
theorem send_reply_blocked_writes_no_audit_row :
    ∃ db', handle_send_reply 0 true (Except.ok unsafeVerdict) true
        { reply_id := some 2 } exDB = Except.ok db' ∧
      (db'.sentEmails.filter fun s => s.delivery_status == "blocked").length = 0 ∧
      db'.sentEmails.length = 0 ∧
      db'.mailSends.length = 0 ∧
      (∀ r ∈ db'.replies, r.id = 2 → r.delivery_status = "blocked") := by
  refine ⟨_, rfl, rfl, rfl, rfl, ?_⟩
  decide

/-- C1 amended: for a `send_reply` job whose safety verdict is not safe
(safety checking enabled), the handler sets the reply's `delivery_status`
to `blocked`, records the reason in `delivery_error`, makes no Mail
Transport send call, and returns without raising, so the job completes
successfully and consumes no retry attempt; however it writes NO SentEmail
audit row (the blocked audit row is written only by the deed send
handlers). -/
theorem send_reply_blocked_path (now : Nat) (call : Except String SafetyData)
    (transportOk : Bool) (payload : Payload) (db : DB) (rid : Nat)
    (reply : SantaReply) (letter : Letter) (child : Child)
    (hpid : payload.reply_id = some rid)
    (hr : findReply db rid = some reply)
    (hl : findLetter db reply.letter_id = some letter)
    (hc : findChild db letter.child_id = some child)
    (hfrom : strPresent letter.from_email = true)
    (hblocked : (check_email_safety call).1 = false) :
    ∃ db', handle_send_reply now true call transportOk payload db = Except.ok db' ∧
      db' = updateReply db rid (fun r =>
        { r with delivery_status := "blocked",
                 delivery_error := some ("Safety check failed: " ++
                   ((check_email_safety call).2.getD "None")) }) ∧
      db'.sentEmails = db.sentEmails ∧
      db'.mailSends = db.mailSends ∧
      (∀ r ∈ db.replies, r.id = rid →
        { r with delivery_status := "blocked",
                 delivery_error := some ("Safety check failed: " ++
                   ((check_email_safety call).2.getD "None")) } ∈ db'.replies) := by
  rcases hq : check_email_safety call with ⟨b, reason⟩
  rw [hq] at hblocked
  simp only at hblocked
  subst hblocked
  refine ⟨_, ?_, rfl, rfl, rfl, ?_⟩
  · simp only [handle_send_reply, hpid, hr, hl, hc, hfrom, hq]
    simp
  · intro r hrm hrid
    simp only [updateReply, List.mem_map, hq]
    refine ⟨r, hrm, ?_⟩
    rw [if_pos (by simp [hrid])]

/-- Witness for C1 amended, at the concrete blocked run on `exDB`. -/
theorem send_reply_blocked_path_witness :
    (check_email_safety (Except.ok unsafeVerdict)).1 = false ∧
    ∃ db', handle_send_reply 0 true (Except.ok unsafeVerdict) true
        { reply_id := some 2 } exDB = Except.ok db' ∧
      db' = updateReply exDB 2 (fun r =>
        { r with delivery_status := "blocked",
                 delivery_error := some ("Safety check failed: " ++
                   ((check_email_safety (Except.ok unsafeVerdict)).2.getD "None")) }) ∧
      db'.sentEmails = exDB.sentEmails ∧
      db'.mailSends = exDB.mailSends ∧
      (∀ r ∈ exDB.replies, r.id = 2 →
        { r with delivery_status := "blocked",
                 delivery_error := some ("Safety check failed: " ++
                   ((check_email_safety (Except.ok unsafeVerdict)).2.getD "None")) } ∈
          db'.replies) :=
  ⟨rfl, send_reply_blocked_path 0 (Except.ok unsafeVerdict) true { reply_id := some 2 }
    exDB 2 exReply exLetter exChild rfl rfl rfl rfl (by decide) rfl⟩

/-! ## C10: deed send handlers skip silently without a sender address -/

lemma foldl_laterLetter_mem (xs : List Letter) :
    ∀ acc l, xs.foldl laterLetter acc = some l → acc = some l ∨ l ∈ xs := by
  induction xs with
  | nil =>
    intro acc l h
    exact Or.inl h
  | cons x rest ih =>
    intro acc l h
    rw [List.foldl_cons] at h
    rcases ih _ l h with hacc | hmem
    · cases acc with
      | none =>
        simp only [laterLetter] at hacc
        injection hacc with hacc
        exact Or.inr (hacc ▸ List.mem_cons_self _ _)
      | some b =>
        simp only [laterLetter] at hacc
        by_cases hlt : b.received_at < x.received_at
        · rw [if_pos hlt] at hacc
          injection hacc with hacc
          exact Or.inr (hacc ▸ List.mem_cons_self _ _)
        · rw [if_neg hlt] at hacc
          exact Or.inl hacc
    · exact Or.inr (List.mem_cons_of_mem _ hmem)

lemma lastLetterOf_mem (db : DB) (cid : Nat) (l : Letter)
    (h : lastLetterOf db cid = some l) : l ∈ db.letters ∧ l.child_id = cid := by
  rcases foldl_laterLetter_mem _ none l h with hcontra | hmem
  · exact absurd hcontra (by simp)
  · obtain ⟨hm, hp⟩ := List.mem_filter.mp hmem
    exact ⟨hm, by simpa using hp⟩

/-- C10: for a `send_deed_email` or `send_deed_congrats` job whose target
child has no Letter with a truthy sender address, the handler returns the
store untouched without sending any email, without writing any SentEmail
row, and without raising — the job completes as a silent skip. -/
theorem deed_handlers_skip_without_email (safetyEnabled : Bool)
    (generated : Except String String) (call : Except String SafetyData)
    (transportOk : Bool) (payload : Payload) (db : DB) (did : Nat)
    (deed : GoodDeed) (child : Child)
    (hpid : payload.deed_id = some did)
    (hd : findDeed db did = some deed)
    (hc : findChild db deed.child_id = some child)
    (hnoemail : ∀ l ∈ db.letters, l.child_id = child.id →
      strPresent l.from_email = false) :
    handle_send_deed_email safetyEnabled generated call transportOk payload db =
      Except.ok db ∧
    handle_send_deed_congrats safetyEnabled generated call transportOk payload db =
      Except.ok db := by
  have hlast : ∀ r, lastLetterOf db child.id = some r →
      strPresent r.from_email = false := by
    intro r hr
    obtain ⟨hm, hcid⟩ := lastLetterOf_mem db child.id r hr
    exact hnoemail r hm hcid
  constructor
  · simp only [handle_send_deed_email, hpid, hd, hc]
    cases hll : lastLetterOf db child.id with
    | none => rfl
    | some r => simp [hlast r hll]
  · simp only [handle_send_deed_congrats, hpid, hd, hc]
    cases hll : lastLetterOf db child.id with
    | none => rfl
    | some r => simp [hlast r hll]

/-- Witness for C10: the child of deed 50 in `sDB` has one letter, with no
sender address, so both handlers are silent no-ops. -/
theorem deed_handlers_skip_without_email_witness :
    (∀ l ∈ sDB.letters, l.child_id = sChild.id → strPresent l.from_email = false) ∧
    handle_send_deed_email true (Except.ok "Hello from Santa") (Except.ok safeVerdict)
      true { deed_id := some 50 } sDB = Except.ok sDB ∧
    handle_send_deed_congrats true (Except.ok "Hello from Santa") (Except.ok safeVerdict)
      true { deed_id := some 50 } sDB = Except.ok sDB :=
  ⟨by decide,
   (deed_handlers_skip_without_email true (Except.ok "Hello from Santa")
     (Except.ok safeVerdict) true { deed_id := some 50 } sDB 50 sDeed sChild
     rfl rfl rfl (by decide)).1,
   (deed_handlers_skip_without_email true (Except.ok "Hello from Santa")
     (Except.ok safeVerdict) true { deed_id := some 50 } sDB 50 sDeed sChild
     rfl rfl rfl (by decide)).2⟩

/-! ## C7: idempotent email matching -/

lemma processIncomingEmail_children (hash : String → String) (now month year : Nat)
    (db : DB) (m : IncomingEmail) :
    (processIncomingEmail hash now month year db m).children = db.children := by
  unfold processIncomingEmail
  split
  · rfl
  · split
    · rfl
    · rfl

lemma countLettersWithMsg_pos_iff_any (db : DB) (mid : String) :
    (db.letters.any fun l => l.message_id == some mid) = true ↔
      1 ≤ countLettersWithMsg db mid := by
  rw [List.any_eq_true]
  constructor
  · rintro ⟨l, hl, hml⟩
    have : l ∈ db.letters.filter fun l => l.message_id == some mid :=
      List.mem_filter.mpr ⟨hl, hml⟩
    have := List.length_pos_of_mem this
    unfold countLettersWithMsg
    omega
  · intro h
    have hpos : 0 < (db.letters.filter fun l => l.message_id == some mid).length := by
      unfold countLettersWithMsg at h
      omega
    obtain ⟨l, hl⟩ := List.exists_mem_of_length_pos hpos
    obtain ⟨hm, hp⟩ := List.mem_filter.mp hl
    exact ⟨l, hm, hp⟩

lemma processIncomingEmail_count_ne (hash : String → String) (now month year : Nat)
    (db : DB) (m : IncomingEmail) (mid : String) (hne : m.message_id ≠ mid) :
    countLettersWithMsg (processIncomingEmail hash now month year db m) mid =
      countLettersWithMsg db mid := by
  unfold processIncomingEmail
  split
  · rfl
  · split
    · rfl
    · simp [countLettersWithMsg, createLetterFor, enqueue_job, List.filter_append, hne]

lemma processIncomingEmail_count_ge1 (hash : String → String) (now month year : Nat)
    (db : DB) (m : IncomingEmail) (mid : String)
    (h : 1 ≤ countLettersWithMsg db mid) :
    countLettersWithMsg (processIncomingEmail hash now month year db m) mid =
      countLettersWithMsg db mid := by
  by_cases hmid : m.message_id = mid
  · have hany : (db.letters.any fun l => l.message_id == some m.message_id) = true := by
      rw [hmid]
      exact (countLettersWithMsg_pos_iff_any db mid).mpr h
    unfold processIncomingEmail
    rw [if_pos hany]
  · exact processIncomingEmail_count_ne hash now month year db m mid hmid

lemma processIncomingEmail_creates (hash : String → String) (now month year : Nat)
    (db : DB) (m : IncomingEmail) (mid : String)
    (hzero : countLettersWithMsg db mid = 0) (hmid : m.message_id = mid)
    (hmatch : childMatched db.children hash m = true) :
    countLettersWithMsg (processIncomingEmail hash now month year db m) mid = 1 := by
  have hany : (db.letters.any fun l => l.message_id == some m.message_id) = false := by
    rw [hmid]
    cases hb : db.letters.any fun l => l.message_id == some mid with
    | false => rfl
    | true =>
      have := (countLettersWithMsg_pos_iff_any db mid).mp hb
      omega
  obtain ⟨child, hchild⟩ := Option.isSome_iff_exists.mp hmatch
  unfold processIncomingEmail
  rw [hany]
  simp only [Bool.false_eq_true, if_false, hchild]
  simp [countLettersWithMsg, createLetterFor, enqueue_job, List.filter_append, hmid] at hzero ⊢
  exact hzero

lemma handle_fetch_emails_children (hash : String → String) (now month year : Nat) :
    ∀ (batch : List IncomingEmail) (db : DB),
      (handle_fetch_emails hash now month year db batch).children = db.children := by
  intro batch
  induction batch with
  | nil => intro db; rfl
  | cons m rest ih =>
    intro db
    show (handle_fetch_emails hash now month year
      (processIncomingEmail hash now month year db m) rest).children = db.children
    rw [ih, processIncomingEmail_children]

lemma handle_fetch_emails_count_ge1 (hash : String → String) (now month year : Nat)
    (mid : String) :
    ∀ (batch : List IncomingEmail) (db : DB), 1 ≤ countLettersWithMsg db mid →
      countLettersWithMsg (handle_fetch_emails hash now month year db batch) mid =
        countLettersWithMsg db mid := by
  intro batch
  induction batch with
  | nil => intro db _; rfl
  | cons m rest ih =>
    intro db h
    show countLettersWithMsg (handle_fetch_emails hash now month year
      (processIncomingEmail hash now month year db m) rest) mid = countLettersWithMsg db mid
    have hstep := processIncomingEmail_count_ge1 hash now month year db m mid h
    rw [ih _ (by omega), hstep]

lemma handle_fetch_emails_creates_once (hash : String → String) (now month year : Nat)
    (mid : String) :
    ∀ (batch : List IncomingEmail) (db : DB), countLettersWithMsg db mid = 0 →
      (∃ m ∈ batch, m.message_id = mid ∧ childMatched db.children hash m = true) →
      countLettersWithMsg (handle_fetch_emails hash now month year db batch) mid = 1 := by
  intro batch
  induction batch with
  | nil =>
    rintro db _ ⟨m, hm, _⟩
    exact absurd hm (List.not_mem_nil m)
  | cons m0 rest ih =>
    rintro db hzero ⟨m, hm, hmid, hmatch⟩
    show countLettersWithMsg (handle_fetch_emails hash now month year
      (processIncomingEmail hash now month year db m0) rest) mid = 1
    by_cases hcase : m0.message_id = mid ∧ childMatched db.children hash m0 = true
    · have h1 := processIncomingEmail_creates hash now month year db m0 mid
        hzero hcase.1 hcase.2
      rw [handle_fetch_emails_count_ge1 hash now month year mid rest _ (by omega), h1]
    · have hstep0 : countLettersWithMsg
          (processIncomingEmail hash now month year db m0) mid = 0 := by
        by_cases hmid0 : m0.message_id = mid
        · have hmatch0 : childMatched db.children hash m0 = false := by
            cases hb : childMatched db.children hash m0 with
            | false => rfl
            | true => exact absurd ⟨hmid0, hb⟩ hcase
          have hany : (db.letters.any fun l => l.message_id == some m0.message_id)
              = false := by
            rw [hmid0]
            cases hb : db.letters.any fun l => l.message_id == some mid with
            | false => rfl
            | true =>
              have := (countLettersWithMsg_pos_iff_any db mid).mp hb
              omega
          have hfind : (db.children.find? fun c =>
              c.email_hash == hash (normalizeEmail m0.from_email)) = none := by
            unfold childMatched at hmatch0
            exact Option.not_isSome_iff_eq_none.mp (by simp [hmatch0])
          unfold processIncomingEmail
          rw [hany]
          simp only [Bool.false_eq_true, if_false, hfind]
          exact hzero
        · rw [processIncomingEmail_count_ne hash now month year db m0 mid hmid0]
          exact hzero
      have hmne : m ≠ m0 := by
        intro heq
        subst heq
        exact hcase ⟨hmid, hmatch⟩
      have hmrest : m ∈ rest := by
        rcases List.mem_cons.mp hm with heq | h
        · exact absurd heq hmne
        · exact h
      exact ih _ hstep0 ⟨m, hmrest, hmid, by
        rw [processIncomingEmail_children]
        exact hmatch⟩

/-- C7: fetching the same inbound message (same `message_id`, registered
sender) across two handler runs creates exactly one Letter row: the first
run creates it and every later occurrence is skipped, so re-fetching is a
no-op for that message id. -/
theorem fetch_twice_creates_one_letter (hash : String → String)
    (now month year : Nat) (db : DB) (b1 b2 : List IncomingEmail)
    (m : IncomingEmail) (mid : String)
    (hm : m ∈ b1) (hmid : m.message_id = mid)
    (hmatch : childMatched db.children hash m = true)
    (hzero : countLettersWithMsg db mid = 0) :
    countLettersWithMsg
      (handle_fetch_emails hash now month year
        (handle_fetch_emails hash now month year db b1) b2) mid = 1 := by
  have h1 := handle_fetch_emails_creates_once hash now month year mid b1 db hzero
    ⟨m, hm, hmid, hmatch⟩
  rw [handle_fetch_emails_count_ge1 hash now month year mid b2 _ (by omega), h1]

/-- Witness for C7: processing the batch `[fEmail]` twice against the
single registered child `fChild` yields exactly one Letter with
`fEmail`'s message id. -/
theorem fetch_twice_creates_one_letter_witness :
    fEmail ∈ [fEmail] ∧ fEmail.message_id = "<m1@mail>" ∧
    childMatched fDB.children exHash fEmail = true ∧
    countLettersWithMsg fDB "<m1@mail>" = 0 ∧
    countLettersWithMsg
      (handle_fetch_emails exHash 7 11 2025
        (handle_fetch_emails exHash 7 11 2025 fDB [fEmail]) [fEmail]) "<m1@mail>" = 1 :=
  ⟨List.mem_cons_self _ _, rfl, by decide, rfl,
   fetch_twice_creates_one_letter exHash 7 11 2025 fDB [fEmail] [fEmail] fEmail
     "<m1@mail>" (List.mem_cons_self _ _) rfl (by decide) rfl⟩

/-! ## C5 / C9: the process-letter pipeline -/

lemma addWishItems_frame (lid : Nat) :
    ∀ (items : List ExtractedItem) (db : DB),
      (addWishItems lid items db).letters = db.letters ∧
      (addWishItems lid items db).deeds = db.deeds ∧
      (addWishItems lid items db).replies = db.replies := by
  intro items
  induction items with
  | nil => intro db; exact ⟨rfl, rfl, rfl⟩
  | cons i rest ih =>
    intro db
    exact ih (addWishItem lid db i)

lemma addModerationFlags_frame (lid cid : Nat) :
    ∀ (flags : List FlagData) (db : DB),
      (addModerationFlags lid cid flags db).letters = db.letters ∧
      (addModerationFlags lid cid flags db).deeds = db.deeds ∧
      (addModerationFlags lid cid flags db).replies = db.replies := by
  intro flags
  induction flags with
  | nil => intro db; exact ⟨rfl, rfl, rfl⟩
  | cons fd rest ih =>
    intro db
    exact ih (addModerationFlag lid cid db fd)

/-- C5: the claim fails on the code — `handle_process_letter` contains no
exception handler.  A concrete run whose extraction step raises propagates
the exception with the Letter left in status `processing` and with no
`error_message` recorded; the Letter is never set to `failed` (the
parallel Celery implementation in `tasks.py` lines 283-287 does record
the failure, which `worker.py` omits). -/
theorem process_letter_error_letter_left_processing :
    ∃ db', handle_process_letter 0 exGptFail { letter_id := some 1 } exDB =
        Except.error ("LLM call failed", db') ∧
      ∀ l ∈ db'.letters, l.status = "processing" ∧ l.error_message = none ∧
        l.status ≠ "failed" := by
  refine ⟨_, rfl, ?_⟩
  decide

/-- What the code actually does on an exception anywhere in the pipeline:
the error store either equals the initial store or differs from it only by
the mark-processing update of the named letter — in particular no Letter
status is ever set to `failed` and no Letter `error_message` is ever
written by the handler. -/
theorem process_letter_error_letters_frame (now : Nat) (gpt : GptCalls)
    (payload : Payload) (db : DB) (e : String) (db' : DB)
    (hrun : handle_process_letter now gpt payload db = Except.error (e, db')) :
    db'.letters = db.letters ∨
    ∃ lid, payload.letter_id = some lid ∧
      db'.letters = db.letters.map fun l =>
        if l.id == lid then { l with status := "processing" } else l := by
  unfold handle_process_letter at hrun
  cases hp : payload.letter_id with
  | none =>
    rw [hp] at hrun
    simp only [Except.error.injEq, Prod.mk.injEq] at hrun
    rw [← hrun.2]
    exact Or.inl rfl
  | some lid =>
    simp only [hp] at hrun
    cases hl : findLetter db lid with
    | none =>
      simp only [hl] at hrun
      simp only [Except.error.injEq, Prod.mk.injEq] at hrun
      rw [← hrun.2]
      exact Or.inl rfl
    | some letter =>
      simp only [hl] at hrun
      cases hc2 : findChild db letter.child_id with
      | none =>
        simp only [hc2] at hrun
        simp only [Except.error.injEq, Prod.mk.injEq] at hrun
        rw [← hrun.2]
        exact Or.inl rfl
      | some child =>
        simp only [hc2] at hrun
        cases hext : gpt.extract_wish_items with
        | error e0 =>
          simp only [hext, Except.error.injEq, Prod.mk.injEq] at hrun
          rw [← hrun.2]
          exact Or.inr ⟨lid, rfl, rfl⟩
        | ok items =>
          simp only [hext] at hrun
          cases hcls : gpt.classify_content with
          | error e0 =>
            simp only [hcls, Except.error.injEq, Prod.mk.injEq] at hrun
            rw [← hrun.2]
            refine Or.inr ⟨lid, rfl, ?_⟩
            rw [(addWishItems_frame lid items _).1]
            rfl
          | ok mr =>
            simp only [hcls] at hrun
            cases hgen : gpt.generate_santa_reply with
            | error e0 =>
              simp only [hgen, Except.error.injEq, Prod.mk.injEq] at hrun
              rw [← hrun.2]
              refine Or.inr ⟨lid, rfl, ?_⟩
              show (addModerationFlags lid child.id mr.flags
                (addWishItems lid items _)).letters = _
              rw [(addModerationFlags_frame lid child.id mr.flags _).1,
                (addWishItems_frame lid items _).1]
              rfl
            | ok pair =>
              simp only [hgen] at hrun
              exact absurd hrun (by simp)

lemma generateReplyStep_spec (now lid : Nat) (child : Child) (replyText : String)
    (suggestedDeed : Option String) (db : DB) :
    ∃ reply, reply ∈ (generateReplyStep now lid child replyText suggestedDeed db).replies ∧
      reply.id = db.nextId ∧ reply.letter_id = lid ∧ reply.body_text = replyText ∧
      reply.delivery_status = "pending" ∧
      (∀ d ∈ db.deeds, d.child_id = child.id → d.completed = true →
        d.acknowledged_in_reply_id = none →
        { d with acknowledged_in_reply_id := some reply.id } ∈
          (generateReplyStep now lid child replyText suggestedDeed db).deeds) ∧
      (∀ d ∈ db.deeds, ¬(d.child_id = child.id ∧ d.completed = true ∧
          d.acknowledged_in_reply_id = none) →
        d ∈ (generateReplyStep now lid child replyText suggestedDeed db).deeds) := by
  refine ⟨{ id := db.nextId, letter_id := lid, body_text := replyText,
            suggested_deed := suggestedDeed, delivery_status := "pending" },
    ?_, rfl, rfl, rfl, rfl, ?_, ?_⟩
  · by_cases hsd : strPresent suggestedDeed = true <;>
      simp [generateReplyStep, hsd, enqueue_job, updateLetter]
  · intro d hd hchild hcomp hack
    have hstamp : stampDeed child.id db.nextId d =
        { d with acknowledged_in_reply_id := some db.nextId } := by
      simp [stampDeed, hchild, hcomp, hack]
    cases hsd : strPresent suggestedDeed with
    | true =>
      simp only [generateReplyStep, hsd, enqueue_job, updateLetter, eq_self_iff_true,
        if_true, List.map_append]
      refine List.mem_append_left _ ?_
      rw [← hstamp]
      exact List.mem_map_of_mem _ hd
    | false =>
      simp only [generateReplyStep, hsd, enqueue_job, updateLetter, Bool.false_eq_true,
        if_false]
      rw [← hstamp]
      exact List.mem_map_of_mem _ hd
  · intro d hd hncond
    have hb : (d.child_id == child.id && d.completed &&
        d.acknowledged_in_reply_id == none) = false := by
      cases hbv : (d.child_id == child.id && d.completed &&
          d.acknowledged_in_reply_id == none) with
      | false => rfl
      | true =>
        exfalso
        apply hncond
        simp only [Bool.and_eq_true, beq_iff_eq] at hbv
        exact ⟨hbv.1.1, hbv.1.2, hbv.2⟩
    have hstamp : stampDeed child.id db.nextId d = d := by
      simp [stampDeed, hb]
    cases hsd : strPresent suggestedDeed with
    | true =>
      simp only [generateReplyStep, hsd, enqueue_job, updateLetter, eq_self_iff_true,
        if_true, List.map_append]
      refine List.mem_append_left _ ?_
      rw [← hstamp]
      exact List.mem_map_of_mem _ hd
    | false =>
      simp only [generateReplyStep, hsd, enqueue_job, updateLetter, Bool.false_eq_true,
        if_false]
      rw [← hstamp]
      exact List.mem_map_of_mem _ hd

/-- C9: a successful reply-generation run creates a SantaReply for the
letter and stamps exactly the child's previously
completed-but-unacknowledged GoodDeeds with that reply's identity; every
other GoodDeed row (incomplete, already acknowledged, or another
child's) passes through unchanged. -/
theorem process_letter_acknowledges_completed_deeds
    (now : Nat) (gpt : GptCalls) (payload : Payload) (db : DB) (lid : Nat)
    (letter : Letter) (child : Child) (items : List ExtractedItem)
    (mr : ModerationResult) (replyText : String) (suggestedDeed : Option String)
    (hpid : payload.letter_id = some lid)
    (hl : findLetter db lid = some letter)
    (hc : findChild db letter.child_id = some child)
    (hext : gpt.extract_wish_items = Except.ok items)
    (hcls : gpt.classify_content = Except.ok mr)
    (hgen : gpt.generate_santa_reply = Except.ok (replyText, suggestedDeed)) :
    ∃ db' reply, handle_process_letter now gpt payload db = Except.ok db' ∧
      reply ∈ db'.replies ∧ reply.letter_id = lid ∧ reply.body_text = replyText ∧
      reply.delivery_status = "pending" ∧
      (∀ d ∈ db.deeds, d.child_id = child.id → d.completed = true →
        d.acknowledged_in_reply_id = none →
        { d with acknowledged_in_reply_id := some reply.id } ∈ db'.deeds) ∧
      (∀ d ∈ db.deeds, ¬(d.child_id = child.id ∧ d.completed = true ∧
          d.acknowledged_in_reply_id = none) → d ∈ db'.deeds) := by
  have hrun : handle_process_letter now gpt payload db =
      Except.ok (generateReplyStep now lid child replyText suggestedDeed
        (enrichWishItems lid gpt.search
          (if strPresent child.country then child.country.getD "" else "US")
          (addModerationFlags lid child.id mr.flags
            (addWishItems lid items
              (updateLetter db lid fun l => { l with status := "processing" }))))) := by
    simp only [handle_process_letter, hpid, hl, hc, hext, hcls, hgen]
  have hdeeds : (enrichWishItems lid gpt.search
      (if strPresent child.country then child.country.getD "" else "US")
      (addModerationFlags lid child.id mr.flags
        (addWishItems lid items
          (updateLetter db lid fun l => { l with status := "processing" })))).deeds
      = db.deeds := by
    show (addModerationFlags lid child.id mr.flags
      (addWishItems lid items
        (updateLetter db lid fun l => { l with status := "processing" }))).deeds = db.deeds
    rw [(addModerationFlags_frame lid child.id mr.flags _).2.1,
      (addWishItems_frame lid items _).2.1]
    rfl
  obtain ⟨reply, hmem, hid, hlid, hbody, hstat, hstamped, hother⟩ :=
    generateReplyStep_spec now lid child replyText suggestedDeed
      (enrichWishItems lid gpt.search
        (if strPresent child.country then child.country.getD "" else "US")
        (addModerationFlags lid child.id mr.flags
          (addWishItems lid items
            (updateLetter db lid fun l => { l with status := "processing" }))))
  rw [hdeeds] at hstamped hother
  exact ⟨_, reply, hrun, hmem, hlid, hbody, hstat, hstamped, hother⟩

/-- Witness for C9: in `wDB`, deeds 20 and 21 (completed, unacknowledged)
are stamped with the new reply's id, while deed 22 (already acknowledged)
and deed 23 (incomplete) pass through unchanged. -/
theorem process_letter_acknowledges_completed_deeds_witness :
    ∃ db' reply, handle_process_letter 3 wGpt { letter_id := some 11 } wDB =
        Except.ok db' ∧
      reply ∈ db'.replies ∧ reply.letter_id = 11 ∧ reply.body_text = "Ho ho ho!" ∧
      reply.delivery_status = "pending" ∧
      (∀ d ∈ wDB.deeds, d.child_id = wChild.id → d.completed = true →
        d.acknowledged_in_reply_id = none →
        { d with acknowledged_in_reply_id := some reply.id } ∈ db'.deeds) ∧
      (∀ d ∈ wDB.deeds, ¬(d.child_id = wChild.id ∧ d.completed = true ∧
          d.acknowledged_in_reply_id = none) → d ∈ db'.deeds) :=
  process_letter_acknowledges_completed_deeds 3 wGpt { letter_id := some 11 } wDB 11
    wLetter wChild [] {} "Ho ho ho!" (some "help set the table")
    rfl rfl rfl rfl rfl rfl

end SantaMailroom
